import Mathlib

set_option autoImplicit false

/-!
Verification development for the closed-loop pointer-control subsystem of the
vision-gpt-control repository.  The Python source is shallowly embedded:
pure methods become Lean functions, stateful loops become explicit
state/trace passing with fuel bounded by the source's own attempt counters,
and calls into external collaborators (the perception oracle, the browser
surface) are parameters of the embedding.  Machine strings are modelled over
ASCII; Python floats are modelled as rationals.
-/

namespace VGC

/-! ## Character and string primitives

Helpers mirroring the pieces of Python regular-expression behaviour used by
the command grammar: the character class backslash-s, the class backslash-d,
ASCII lowering (str.lower), and decimal digit accumulation (int()). -/

/-- Python regex whitespace class membership (ASCII part). -/
def isPySpace (c : Char) : Bool :=
  c = ' ' || c = '\t' || c = '\n' || c = '\r' || c = '\x0b' || c = '\x0c'

/-- Python regex digit class membership (ASCII part). -/
def isDigitChar (c : Char) : Bool :=
  48 ≤ c.toNat && c.toNat ≤ 57

/-- Numeric value of a decimal digit character. -/
def digitVal (c : Char) : ℕ := c.toNat - 48

/-- ASCII lower-casing of one character (str.lower restricted to ASCII). -/
def asciiLowerChar (c : Char) : Char :=
  if 'A' ≤ c && c ≤ 'Z' then Char.ofNat (c.toNat + 32) else c

/-- ASCII lower-casing of a string, as the character list it denotes. -/
def lowerChars (s : String) : List Char :=
  s.toList.map asciiLowerChar

/-- Drop a maximal run of whitespace (regex backslash-s star). -/
def dropSpaces : List Char → List Char
  | [] => []
  | c :: rest => if isPySpace c then dropSpaces rest else c :: rest

/-- Require at least one whitespace character, then drop the maximal run
(regex backslash-s plus). -/
def spaces1 : List Char → Option (List Char)
  | [] => none
  | c :: rest => if isPySpace c then some (dropSpaces rest) else none

/-- Match a literal character sequence as a prefix, returning the remainder. -/
def litP : List Char → List Char → Option (List Char)
  | [], s => some s
  | _, [] => none
  | p :: ps, c :: cs => if c = p then litP ps cs else none

/-- Decimal value of a digit-character run (how int() reads the capture). -/
def digitsToNat (ds : List Char) : ℕ :=
  ds.foldl (fun a c => 10 * a + digitVal c) 0

/-- Match one-or-more digits (regex backslash-d plus), returning the value,
the number of digit characters consumed, and the remainder. -/
def takeDigits1 (s : List Char) : Option (ℕ × ℕ × List Char) :=
  let p := s.span isDigitChar
  if p.1 = [] then none else some (digitsToNat p.1, p.1.length, p.2)

/-! ## Command grammar

Embeddings of the three regular expressions of the command pipeline:

* NLPMouseController.parse_command (src/controllers/nlp_mouse_controller.py):
  re.fullmatch over the lower-cased command with pattern
  move to ( ws* d+ ws* , ws* d+ ws* ) with an optional
  ws+ and ws+ (click|double-click|right-click) tail;
* CommandFormatterAgent.format_command (src/agents/command_formatter.py):
  the same shape but with coordinate captures limited to 1-4 digits,
  followed by the bounds check 0 <= x <= 1000 and 0 <= y <= 600 and
  re-emission of the canonical command string;
* CommandFormatterAgent.validate_command: a case-sensitive re.match of
  move to ( d+ , ws* d+ ) with an optional ws+ and ws+ click tail. -/

/-- The three click actions of the command grammar alternation. -/
inductive MouseAction where
  | click
  | doubleClick
  | rightClick
deriving DecidableEq

/-- The capture text of each action alternative (what match.group(3)
holds when the alternation matched). -/
def actionStr : MouseAction → String
  | .click => "click"
  | .doubleClick => "double-click"
  | .rightClick => "right-click"

/-- Optional action tail shared by parse_command and format_command:
empty input, or whitespace, "and", whitespace and one of the three
action words, consuming the whole remainder. -/
def actionTail (s : List Char) : Option (Option MouseAction) :=
  if s = [] then some none
  else
    match spaces1 s with
    | none => none
    | some s =>
      match litP "and".toList s with
      | none => none
      | some s =>
        match spaces1 s with
        | none => none
        | some s =>
          if s = "click".toList then some (some .click)
          else if s = "double-click".toList then some (some .doubleClick)
          else if s = "right-click".toList then some (some .rightClick)
          else none

/-- Core match shared by parse_command and format_command (their regexes
differ only in the digit-count bound on the coordinate captures, which is
checked afterwards from the returned digit counts).  Returns
(x, x-digit-count, y, y-digit-count, action). -/
def matchMoveAux (s : List Char) :
    Option (ℕ × ℕ × ℕ × ℕ × Option MouseAction) :=
  match litP "move to (".toList s with
  | none => none
  | some s =>
    let s := dropSpaces s
    match takeDigits1 s with
    | none => none
    | some (x, xn, s) =>
      let s := dropSpaces s
      match litP ",".toList s with
      | none => none
      | some s =>
        let s := dropSpaces s
        match takeDigits1 s with
        | none => none
        | some (y, yn, s) =>
          let s := dropSpaces s
          match litP ")".toList s with
          | none => none
          | some s =>
            match actionTail s with
            | none => none
            | some a => some (x, xn, y, yn, a)

/-- NLPMouseController.parse_command: lower-case the command and fullmatch
the movement grammar, returning coordinates and the optional action. -/
def parse_command (command : String) : Option (ℕ × ℕ × Option String) :=
  match matchMoveAux (lowerChars command) with
  | some (x, _, y, _, a) => some (x, y, a.map actionStr)
  | none => none

/-- Decimal digit character for a value below ten. -/
def digitCh (d : ℕ) : Char := Char.ofNat (48 + d)

/-- Auxiliary structural recursion for the decimal representation: with
enough fuel, emit the digits of n most-significant first. -/
def natReprAux : ℕ → ℕ → List Char
  | 0, _ => []
  | fuel + 1, n => if n = 0 then [] else natReprAux fuel (n / 10) ++ [digitCh (n % 10)]

/-- Decimal representation of a natural number, as characters (str(int)). -/
def natReprChars (n : ℕ) : List Char :=
  if n = 0 then ['0'] else natReprAux n n

/-- Decimal representation of a natural number (str(int)). -/
def natRepr (n : ℕ) : String := String.mk (natReprChars n)

/-- Suffix appended by format_command for the captured action group. -/
def actionSuffix : Option MouseAction → String
  | none => ""
  | some a => " and " ++ actionStr a

/-- Canonical command string rebuilt by format_command. -/
def canonicalCommand (x y : ℕ) (a : Option MouseAction) : String :=
  "move to (" ++ natRepr x ++ ", " ++ natRepr y ++ ")" ++ actionSuffix a

/-- CommandFormatterAgent.format_command: fullmatch the lower-cased command
with 1-4 digit coordinate captures, check the bounds
0 <= x <= 1000 and 0 <= y <= 600, and re-emit the canonical string;
otherwise None. -/
def format_command (command : String) : Option String :=
  match matchMoveAux (lowerChars command) with
  | none => none
  | some (x, xn, y, yn, a) =>
    if xn ≤ 4 ∧ yn ≤ 4 then
      if 0 ≤ x ∧ x ≤ 1000 ∧ 0 ≤ y ∧ y ≤ 600 then
        some (canonicalCommand x y a)
      else none
    else none

/-- Case-sensitive optional tail of validate_command: empty input, or
whitespace, "and", whitespace, the exact word "click". -/
def validateTail (s : List Char) : Bool :=
  if s = [] then true
  else
    match spaces1 s with
    | none => false
    | some s =>
      match litP "and".toList s with
      | none => false
      | some s =>
        match spaces1 s with
        | none => false
        | some s => s = "click".toList

/-- Body of validate_command on the raw (not lower-cased) characters:
the anchored pattern move to ( d+ , ws* d+ ) with the optional
and-click tail.  Note: unlike parse_command, no whitespace is allowed
after the opening parenthesis, before the comma or before the closing
parenthesis, and matching is case-sensitive. -/
def validateMove (s : List Char) : Bool :=
  match litP "move to (".toList s with
  | none => false
  | some s =>
    match takeDigits1 s with
    | none => false
    | some (_, _, s) =>
      match litP ",".toList s with
      | none => false
      | some s =>
        let s := dropSpaces s
        match takeDigits1 s with
        | none => false
        | some (_, _, s) =>
          match litP ")".toList s with
          | none => false
          | some s => validateTail s

/-- CommandFormatterAgent.validate_command: empty commands are invalid,
otherwise the anchored case-sensitive pattern decides. -/
def validate_command (command : String) : Bool :=
  if command = "" then false else validateMove command.toList

/-! ## Position verification (Mouse, NLPMouseController)

Mouse (src/computer/mouse.py) defines movement_tolerance = 2 pixels, but
the post-move and post-click checks of NLPMouseController compare the
reported position with the target by exact equality. -/

/-- Mouse.movement_tolerance (src/computer/mouse.py line 19), in pixels. -/
def movement_tolerance : ℕ := 2

/-- NLPMouseController._verify_location: the reported mouse position must
equal the target exactly. -/
def verify_location (current : ℚ × ℚ) (x y : ℚ) : Bool :=
  decide (current = (x, y))

/-- NLPMouseController._verify_click_success: the reported mouse position
after the click must equal the click target exactly. -/
def verify_click_success (current : ℚ × ℚ) (x y : ℚ) : Bool :=
  decide (current = (x, y))

/-! ## The execute_command loop (NLPMouseController.execute_command)

The loop interacts with two collaborators: the regeneration oracle
(TextAgent.generate_command, reached through _regenerate_command) and the
mouse.  Both are modelled as response functions indexed by the number of
calls made so far; the trace records those call counts and the sequence of
move targets, so that theorems can speak about how many oracle calls were
issued and where the mouse was sent.  _regenerate_command wraps its oracle
call in try/except and returns None on any exception, so its outcome is
Option String.  Mouse.move_to and Mouse.click are total and return booleans
(section on Mouse below); Mouse has no double_click or right_click method,
so those two action branches of execute_command raise AttributeError,
which nothing in execute_command catches. -/

/-- A Python-level exception escaping an embedded fragment. -/
inductive PyErr where
  | typeError
  | valueError
  | attributeError
deriving DecidableEq

/-- Collaborator responses seen by one execute_command invocation:
viewport bounds, the regeneration oracle's replies (None models an
exception inside _regenerate_command), and the mouse's responses,
each indexed by the number of calls of that kind made so far. -/
structure Env where
  W : ℕ
  H : ℕ
  regenerate : ℕ → Option String
  moveResult : ℕ → Bool
  reportedPos : ℕ → ℚ × ℚ
  clickResult : ℕ → Bool

/-- Interaction trace of one execute_command invocation: number of
regeneration-oracle calls, the mouse-move targets issued (clamped), and
the counts of get_position and click calls. -/
structure Trace where
  regenCalls : ℕ
  moves : List (ℕ × ℕ)
  posCalls : ℕ
  clickCalls : ℕ
deriving DecidableEq

/-- One pass of the body of execute_command after a command has passed
validation or formatting: parse, clamp to the viewport, move, verify the
location, optionally click and verify the click.  The retry continuation
is the next loop iteration (retry_attempts incremented). -/
def executeStep (env : Env) (retry : String → Trace → Except PyErr Bool × Trace)
    (command : String) (tr : Trace) : Except PyErr Bool × Trace :=
  match parse_command command with
  | none => (.ok false, tr)
  | some (x, y, action) =>
    let cx := max 0 (min x env.W)
    let cy := max 0 (min y env.H)
    let moveOk := env.moveResult tr.moves.length
    let tr := { tr with moves := tr.moves ++ [(cx, cy)] }
    if moveOk = false then retry command tr
    else
      let pos := env.reportedPos tr.posCalls
      let tr := { tr with posCalls := tr.posCalls + 1 }
      if verify_location pos (cx : ℚ) (cy : ℚ) = false then retry command tr
      else
        match action with
        | none => (.ok true, tr)
        | some a =>
          if a = "click" then
            let clickOk := env.clickResult tr.clickCalls
            let tr := { tr with clickCalls := tr.clickCalls + 1 }
            if clickOk = false then retry command tr
            else
              let pos2 := env.reportedPos tr.posCalls
              let tr := { tr with posCalls := tr.posCalls + 1 }
              if verify_click_success pos2 (cx : ℚ) (cy : ℚ) = false then
                retry command tr
              else (.ok true, tr)
          else if a = "double-click" then (.error .attributeError, tr)
          else if a = "right-click" then (.error .attributeError, tr)
          else (.ok false, tr)

/-- The while loop of execute_command, with fuel
max_regeneration_attempts - retry_attempts.  When validation fails the
command is formatted; when formatting also fails one regeneration-oracle
call is made, and the loop either continues with a validated regenerated
command or returns False at once. -/
def executeLoop (env : Env) : ℕ → String → Trace → Except PyErr Bool × Trace
  | 0, _, tr => (.ok false, tr)
  | fuel + 1, command, tr =>
    if validate_command command = false then
      match format_command command with
      | none =>
        let reply := env.regenerate tr.regenCalls
        let tr := { tr with regenCalls := tr.regenCalls + 1 }
        match reply with
        | some nc =>
          if validate_command nc then executeLoop env fuel nc tr
          else (.ok false, tr)
        | none => (.ok false, tr)
      | some fc => executeStep env (fun c t => executeLoop env fuel c t) fc tr
    else executeStep env (fun c t => executeLoop env fuel c t) command tr

/-- NLPMouseController.max_regeneration_attempts
(src/controllers/nlp_mouse_controller.py line 56). -/
def maxRegenerationAttempts : ℕ := 5

/-- NLPMouseController.execute_command: run the retry loop with
max_regeneration_attempts as the retry bound, starting from an empty
interaction trace. -/
def execute_command (env : Env) (command : String) : Except PyErr Bool × Trace :=
  executeLoop env maxRegenerationAttempts command ⟨0, [], 0, 0⟩

/-! ## The Mouse actuation wrappers (src/computer/mouse.py)

Mouse talks to the external surface (the browser) through the duck-typed
primitives move_mouse, click_mouse and get_mouse_position, each guarded by
a hasattr check and the browser_sync_enabled flag.  The surface is a
parameter: its primitives may return a boolean or raise, and the two
primitives that are called more than once per wrapper invocation
(click_mouse, get_mouse_position) are indexed by the call number.  The
wrappers move_to and click wrap their whole bodies in try/except and
return a plain boolean, so the embedded wrappers are total functions into
Bool: no exception reaches the caller. -/

/-- Python int() truncation toward zero on a rational. -/
def pyInt (q : ℚ) : ℤ := if 0 ≤ q then ⌊q⌋ else ⌈q⌉

/-- Smoothstep easing used by _generate_movement_path. -/
def smoothstep (t : ℚ) : ℚ := t * t * (3 - 2 * t)

/-- Mouse._generate_movement_path: steps+1 waypoints interpolated from
start to tgt with smoothstep easing of i/steps. -/
def generate_movement_path (start tgt : ℚ × ℚ) (steps : ℕ) : List (ℚ × ℚ) :=
  (List.range (steps + 1)).map (fun (i : ℕ) =>
    let t : ℚ := (i : ℚ) / (steps : ℚ)
    let t := smoothstep t
    (start.1 + (tgt.1 - start.1) * t, start.2 + (tgt.2 - start.2) * t))

/-- The external surface as seen by Mouse: capability flags (hasattr) and
the three primitives; click_mouse and get_mouse_position responses are
indexed by the number of calls already made in the current wrapper
invocation. -/
structure Surface where
  hasMoveMouse : Bool
  hasClickMouse : Bool
  hasGetMousePosition : Bool
  moveMouse : ℚ × ℚ → Except PyErr Bool
  clickMouse : ℕ → String → Except PyErr Bool
  getMousePosition : ℕ → Except PyErr (Option (ℚ × ℚ))

/-- Mouse position bookkeeping (_position / current_position and
browser_position always receive the same value in move_to and
get_position, so one field each suffices). -/
structure MouseState where
  pos : ℚ × ℚ
  browserPos : ℚ × ℚ
deriving DecidableEq

/-- Mouse.get_position: when sync is enabled and the surface supports it,
ask the surface for its cursor position (k-th such call); a truthy reply
overwrites the internal state, otherwise the internal position is
returned.  A raising primitive propagates (get_position has no
try/except). -/
def mouseGetPosition (s : Surface) (sync : Bool) (k : ℕ) (st : MouseState) :
    Except PyErr ((ℚ × ℚ) × MouseState) :=
  if sync && s.hasGetMousePosition then
    match s.getMousePosition k with
    | .error e => .error e
    | .ok none => .ok (st.pos, st)
    | .ok (some p) => .ok (p, ⟨p, p⟩)
  else .ok (st.pos, st)

/-- The waypoint loop in Mouse.move_to (smooth branch): for each waypoint,
call the surface move primitive when available, return False on a falsy
reply, propagate a raise, and always update the internal position. -/
def moveMouseSteps (s : Surface) (sync : Bool) :
    List (ℚ × ℚ) → MouseState → Except PyErr (Bool × MouseState)
  | [], st => .ok (true, st)
  | p :: rest, _ =>
    if sync && s.hasMoveMouse then
      match s.moveMouse ((pyInt p.1 : ℚ), (pyInt p.2 : ℚ)) with
      | .error e => .error e
      | .ok false => .ok (false, ⟨p, p⟩)
      | .ok true => moveMouseSteps s sync rest ⟨p, p⟩
    else moveMouseSteps s sync rest ⟨p, p⟩

/-- The try-block of Mouse.move_to: clamp to screen bounds, read the start
position, then either walk the smoothstep path or issue one direct move. -/
def moveToBody (s : Surface) (sync : Bool) (W H : ℚ) (st : MouseState)
    (x y : ℚ) (smooth : Bool) : Except PyErr (Bool × MouseState) :=
  let x := max 0 (min x W)
  let y := max 0 (min y H)
  match mouseGetPosition s sync 0 st with
  | .error e => .error e
  | .ok (startPos, st1) =>
    if smooth then
      moveMouseSteps s sync (generate_movement_path startPos (x, y) 30) st1
    else
      if sync && s.hasMoveMouse then
        match s.moveMouse ((pyInt x : ℚ), (pyInt y : ℚ)) with
        | .error e => .error e
        | .ok false => .ok (false, st1)
        | .ok true => .ok (true, ⟨(x, y), (x, y)⟩)
      else .ok (true, ⟨(x, y), (x, y)⟩)

/-- Mouse.move_to: the try/except wrapper around moveToBody; every raise
is caught and reported as False. -/
def move_to (s : Surface) (sync : Bool) (W H : ℚ) (st : MouseState)
    (x y : ℚ) (smooth : Bool) : Bool :=
  match moveToBody s sync W H st x y smooth with
  | .error _ => false
  | .ok (b, _) => b

/-- The final logger.debug line of Mouse.click evaluates get_position once
more (the k-th surface get call); its raise is caught by the wrapper. -/
def clickDebugLine (s : Surface) (sync : Bool) (k : ℕ) (st : MouseState) :
    Except PyErr Bool :=
  match mouseGetPosition s sync k st with
  | .error e => .error e
  | .ok _ => .ok true

/-- Discard the boolean reply of a primitive whose result the source
ignores, keeping only the possibility of a raise. -/
def discardResult (r : Except PyErr Bool) : Except PyErr Unit :=
  match r with
  | .error e => .error e
  | .ok _ => .ok ()

/-- The try-block of Mouse.click: when sync is enabled, read the current
position, re-assert it to the surface (the boolean reply of that
move_mouse call is discarded), then click once or twice through the
surface; a falsy click reply returns False.  The trailing debug line
reads the position once more. -/
def clickBody (s : Surface) (sync : Bool) (st : MouseState)
    (button : String) (double : Bool) : Except PyErr Bool :=
  if sync then
    match mouseGetPosition s sync 0 st with
    | .error e => .error e
    | .ok (currentPos, st1) =>
      match (if s.hasMoveMouse then discardResult (s.moveMouse currentPos) else .ok ()) with
      | .error e => .error e
      | .ok _ =>
        if s.hasClickMouse then
          match s.clickMouse 0 button with
          | .error e => .error e
          | .ok false => .ok false
          | .ok true =>
            if double then
              match s.clickMouse 1 button with
              | .error e => .error e
              | .ok false => .ok false
              | .ok true => clickDebugLine s sync 1 st1
            else clickDebugLine s sync 1 st1
        else clickDebugLine s sync 1 st1
  else clickDebugLine s sync 0 st

/-- Mouse.click: the try/except wrapper around clickBody; every raise is
caught and reported as False. -/
def click (s : Surface) (sync : Bool) (st : MouseState)
    (button : String) (double : Bool) : Bool :=
  match clickBody s sync st button double with
  | .error _ => false
  | .ok b => b

/-! ## The task scheduler (FlowController, src/controllers/flow_controller.py)

process_task raises TaskProcessingError on a recoverable failure and may
let other exceptions escape; its outcome per attempt is a parameter
indexed by the attempt number.  process_task_with_retries catches only
TaskProcessingError, sleeps retry_delay * 2^(retries-1) after the
retries-th failure, and appends the task to the dead-letter queue exactly
once when MAX_RETRIES attempts are exhausted; any other exception
propagates to the worker.  The embedding returns the dead-letter flag,
the number of process_task calls and the list of sleep durations; the
worker folds the flag into its state. -/

/-- Outcome of one process_task invocation. -/
inductive TaskOutcome where
  | success
  | taskError
  | otherError
deriving DecidableEq

/-- FlowController.MAX_RETRIES (src/controllers/flow_controller.py line 37). -/
def MAX_RETRIES : ℕ := 3

/-- The while loop of process_task_with_retries with fuel
MAX_RETRIES - retries; arguments: fuel, process_task calls made so far,
sleeps performed so far.  Returns (dead-lettered, calls, sleeps); an
uncaught exception is Except.error. -/
def retryLoop (d : ℚ) (outcome : ℕ → TaskOutcome) :
    ℕ → ℕ → List ℚ → Except Unit (Bool × ℕ × List ℚ)
  | 0, calls, sleeps => .ok (true, calls, sleeps)
  | fuel + 1, calls, sleeps =>
    match outcome calls with
    | .success => .ok (false, calls + 1, sleeps)
    | .taskError => retryLoop d outcome fuel (calls + 1) (sleeps ++ [d * 2 ^ calls])
    | .otherError => .error ()

/-- FlowController.process_task_with_retries. -/
def process_task_with_retries (d : ℚ) (outcome : ℕ → TaskOutcome) :
    Except Unit (Bool × ℕ × List ℚ) :=
  retryLoop d outcome MAX_RETRIES 0 []

/-- Worker-side bookkeeping of FlowController._task_worker:
tasks_processed, tasks_failed and the dead-letter queue. -/
structure WorkerState where
  processed : ℕ
  failed : ℕ
  deadLetters : List ℕ
deriving DecidableEq

/-- FlowController._task_worker over a finite queue of task identifiers:
pop FIFO, run process_task_with_retries; a normal return (dead-lettered
or not) counts as processed, an escaped exception is caught and counts
as failed; either way the worker continues with the rest of the queue. -/
def task_worker (d : ℚ) (outcome : ℕ → ℕ → TaskOutcome) :
    List ℕ → WorkerState → WorkerState
  | [], ws => ws
  | t :: rest, ws =>
    match process_task_with_retries d (outcome t) with
    | .ok (dl, _, _) =>
      task_worker d outcome rest
        ⟨ws.processed + 1, ws.failed, ws.deadLetters ++ if dl then [t] else []⟩
    | .error _ =>
      task_worker d outcome rest ⟨ws.processed, ws.failed + 1, ws.deadLetters⟩

/-! ## Confidence parsing of oracle verification replies
(MouseControllerHelper.verify_mouse_position, src/click_continue_in_browser.py)

The reply string goes through json.loads and then
float(data.get("confidence", 0.0)) inside
try ... except (ValueError, json.JSONDecodeError).  The embedding takes
the outcome of json.loads as input: None models a json.JSONDecodeError
(caught, confidence 0); a JSON value is then fed to the dict lookup and
the float() conversion.  float() of a non-numeric string raises
ValueError (caught); float() of None, a list or a dict raises TypeError,
and .get on a non-dict raises AttributeError — neither is caught. -/

/-- A parsed JSON value. -/
inductive JsonVal where
  | null
  | bool (b : Bool)
  | num (q : ℚ)
  | str (s : String)
  | arr (xs : List JsonVal)
  | obj (kvs : List (String × JsonVal))

/-- Python dict lookup on the association list of a JSON object. -/
def lookupKey : List (String × JsonVal) → String → Option JsonVal
  | [], _ => none
  | (k, v) :: rest, key => if k = key then some v else lookupKey rest key

/-- Python float() on a string: modelled subset of the float literal
grammar — optional sign, digits, optional fractional part, at least one
digit; anything else is None (ValueError). -/
def pyParseFloat (s : String) : Option ℚ :=
  let cs := s.toList
  let sc : ℚ × List Char :=
    match cs with
    | '-' :: rest => (-1, rest)
    | '+' :: rest => (1, rest)
    | _ => (1, cs)
  let ip := sc.2.span isDigitChar
  match ip.2 with
  | [] => if ip.1 = [] then none else some (sc.1 * (digitsToNat ip.1 : ℚ))
  | '.' :: fracRest =>
    let fp := fracRest.span isDigitChar
    if fp.2 = [] ∧ (ip.1 ≠ [] ∨ fp.1 ≠ []) then
      some (sc.1 * ((digitsToNat ip.1 : ℚ) + (digitsToNat fp.1 : ℚ) / 10 ^ fp.1.length))
    else none
  | _ => none

/-- Python float() on a JSON value: numbers pass through, booleans become
0 or 1, numeric strings are parsed and non-numeric strings raise
ValueError, and None, lists and dicts raise TypeError. -/
def pyFloat : JsonVal → Except PyErr ℚ
  | .num q => .ok q
  | .bool b => .ok (if b then 1 else 0)
  | .str s =>
    match pyParseFloat s with
    | some q => .ok q
    | none => .error .valueError
  | .null => .error .typeError
  | .arr _ => .error .typeError
  | .obj _ => .error .typeError

/-- MouseControllerHelper.verify_mouse_position, confidence extraction:
given the outcome of json.loads on the oracle reply (None when the reply
is not valid JSON), return the confidence, with ValueError and
JSONDecodeError converted to confidence 0 by the except clause and every
other exception propagating to the caller. -/
def verify_mouse_position (loads : Option JsonVal) : Except PyErr ℚ :=
  match loads with
  | none => .ok 0
  | some v =>
    match v with
    | .obj kvs =>
      match pyFloat ((lookupKey kvs "confidence").getD (.num 0)) with
      | .ok c => .ok c
      | .error .valueError => .ok 0
      | .error e => .error e
    | _ => .error .attributeError

/-! ## Coordinate normalization (BrowserController.normalize_coordinates,
src/computer/browser.py) -/

/-- The dimensions read by normalize_coordinates: the browser viewport and
the fixed screenshot resolution. -/
structure ViewportMapping where
  viewportWidth : ℚ
  viewportHeight : ℚ
  screenshotWidth : ℚ
  screenshotHeight : ℚ

/-- BrowserController.normalize_coordinates: pure linear scaling between
screenshot (image) space and viewport (surface) space; the direction is
selected by from_screenshot. -/
def normalize_coordinates (m : ViewportMapping) (x y : ℚ)
    (fromScreenshot : Bool) : ℚ × ℚ :=
  if fromScreenshot then
    ((x * m.viewportWidth) / m.screenshotWidth,
     (y * m.viewportHeight) / m.screenshotHeight)
  else
    ((x * m.screenshotWidth) / m.viewportWidth,
     (y * m.screenshotHeight) / m.viewportHeight)

/-- Image-to-surface conversion (normalize_coordinates with
from_screenshot = True), under the name the specification uses. -/
def to_surface (m : ViewportMapping) (p : ℚ × ℚ) : ℚ × ℚ :=
  normalize_coordinates m p.1 p.2 true

/-- Surface-to-image conversion (normalize_coordinates with
from_screenshot = False), under the name the specification uses. -/
def to_image (m : ViewportMapping) (p : ℚ × ℚ) : ℚ × ℚ :=
  normalize_coordinates m p.1 p.2 false

/-! ## Concrete collaborator environments used by individual claims -/

/-- Environment for the regeneration-bound claim: the oracle always
replies with the same malformed string. -/
def envC1 : Env :=
  ⟨1000, 600, fun _ => some "still not a command", fun _ => true,
    fun _ => (0, 0), fun _ => true⟩

/-- Environment for the bounds claim: viewport 1000 by 600, a mouse whose
moves succeed and whose reported position is (1000, 599). -/
def envC3 : Env :=
  ⟨1000, 600, fun _ => none, fun _ => true, fun _ => (1000, 599),
    fun _ => true⟩

/-- The dimensions the source initializes: viewport 776 by 464 (the
custom viewport of the controllers) and the 1008 by 1008 screenshot of
BrowserController. -/
def mapC6 : ViewportMapping := ⟨776, 464, 1008, 1008⟩

/-- A fully capable surface whose primitives always succeed, used to
instantiate the actuation-wrapper theorem. -/
def surfC8 : Surface :=
  ⟨true, true, true, fun _ => .ok true, fun _ _ => .ok true,
    fun _ => .ok (some (5, 5))⟩

/-! ## Trace lemmas for the execute_command loop -/

/-- Every branch of one executeStep pass only appends to the list of issued
move targets, so with a head-preserving retry continuation the head of a
nonempty move list is preserved. -/
theorem executeStep_moves_head (env : Env)
    (retry : String → Trace → Except PyErr Bool × Trace) (command : String)
    (tr : Trace)
    (hretry : ∀ c t, t.moves ≠ [] → ((retry c t).2).moves.head? = t.moves.head?)
    (htr : tr.moves ≠ []) :
    ((executeStep env retry command tr).2).moves.head? = tr.moves.head? := by
  obtain ⟨m, ms, hm⟩ : ∃ m ms, tr.moves = m :: ms := by
    cases h : tr.moves with
    | nil => exact absurd h htr
    | cons a l => exact ⟨a, l, rfl⟩
  unfold executeStep
  dsimp only
  repeat' split
  all_goals
    first
      | rfl
      | exact (hretry _ _ (by simp [hm])).trans (by simp [hm])
      | simp [hm]

/-- The loop of execute_command never removes issued moves: once the move
list is nonempty its head is stable across all further iterations. -/
theorem executeLoop_moves_head (env : Env) :
    ∀ (fuel : ℕ) (command : String) (tr : Trace), tr.moves ≠ [] →
      ((executeLoop env fuel command tr).2).moves.head? = tr.moves.head? := by
  intro fuel
  induction fuel with
  | zero => intro command tr _; rfl
  | succ n ih =>
    intro command tr htr
    rw [executeLoop]
    split
    · split
      · dsimp only
        split
        · split
          · exact ih _ _ htr
          · rfl
        · rfl
      · exact executeStep_moves_head env _ _ tr (fun c t ht => ih c t ht) htr
    · exact executeStep_moves_head env _ _ tr (fun c t ht => ih c t ht) htr

/-! ## Further helper lemmas -/

/-- When parsing succeeds, the first mouse move issued by the loop body is
at the clamped coordinates, whatever happens afterwards. -/
theorem executeStep_first_move (env : Env)
    (retry : String → Trace → Except PyErr Bool × Trace) (command : String)
    (tr : Trace) (x y : ℕ) (a : Option String)
    (hp : parse_command command = some (x, y, a))
    (htr : tr.moves = [])
    (hretry : ∀ c t, t.moves ≠ [] → ((retry c t).2).moves.head? = t.moves.head?) :
    ((executeStep env retry command tr).2).moves.head?
      = some (max 0 (min x env.W), max 0 (min y env.H)) := by
  unfold executeStep
  rw [hp]
  dsimp only
  repeat' split
  all_goals
    first
      | exact (hretry _ _ (by simp [htr])).trans (by simp [htr])
      | simp [htr]

/-- With an oracle whose every reply fails, the retry loop of the task
scheduler makes one process_task call per fuel unit, sleeps
d * 2 ^ (attempt - 1) after each failed attempt, and ends dead-lettered. -/
theorem retryLoop_allFail (d : ℚ) (o : ℕ → TaskOutcome)
    (ho : ∀ n, o n = .taskError) :
    ∀ (fuel calls : ℕ) (sleeps : List ℚ),
      retryLoop d o fuel calls sleeps =
        .ok (true, calls + fuel,
          sleeps ++ (List.range fuel).map (fun k => d * 2 ^ (calls + k))) := by
  intro fuel
  induction fuel with
  | zero => intro calls sleeps; simp [retryLoop]
  | succ m ih =>
    intro calls sleeps
    rw [retryLoop, ho]
    dsimp only
    rw [ih (calls + 1) (sleeps ++ [d * 2 ^ calls])]
    simp only [Except.ok.injEq, Prod.mk.injEq, true_and]
    constructor
    · omega
    · rw [List.range_succ_eq_map]
      simp only [List.map_cons, List.map_map, List.append_assoc, List.cons_append,
        List.nil_append, Nat.add_zero]
      refine congrArg (sleeps ++ ·) (congrArg (d * 2 ^ calls :: ·) ?_)
      refine List.map_congr_left ?_
      intro k _
      simp only [Function.comp]
      have he : calls + 1 + k = calls + (k + 1) := by omega
      rw [he]

/-- A drained try-block result is reported True by the wrapper exactly
when the body returned True. -/
theorem except_match_true_iff (r : Except PyErr (Bool × MouseState)) :
    (match r with
      | .error _ => false
      | .ok (b, _) => b) = true ↔ ∃ st2, r = .ok (true, st2) := by
  cases r with
  | error e => simp
  | ok v =>
    obtain ⟨b, st2⟩ := v
    cases b <;> simp

/-- The loop of moveMouseSteps returns True exactly when the surface move
primitive accepts every waypoint; a falsy reply or a raise at any
waypoint yields a non-True outcome. -/
theorem moveMouseSteps_ok_iff (s : Surface) (hM : s.hasMoveMouse = true) :
    ∀ (path : List (ℚ × ℚ)) (st : MouseState),
      (∃ st2, moveMouseSteps s true path st = .ok (true, st2)) ↔
        ∀ p ∈ path, s.moveMouse ((pyInt p.1 : ℚ), (pyInt p.2 : ℚ)) = .ok true := by
  intro path
  induction path with
  | nil => intro st; simp [moveMouseSteps]
  | cons p rest ih =>
    intro st
    rw [moveMouseSteps]
    simp only [hM, Bool.and_self, if_true]
    cases hmv : s.moveMouse ((pyInt p.1 : ℚ), (pyInt p.2 : ℚ)) with
    | error e => simp [hmv]
    | ok b =>
      cases b with
      | false => simp [hmv]
      | true => simp [hmv, ih]

/-! ## Decimal-representation and canonical-command lemmas

Facts about str(int) round-tripping through the digit grammar, used to
show that format_command re-emits commands it would itself accept. -/

theorem toList_append (s t : String) : (s ++ t).toList = s.toList ++ t.toList :=
  String.data_append s t

theorem digitCh_props (d : ℕ) (hd : d < 10) :
    isDigitChar (digitCh d) = true ∧ isPySpace (digitCh d) = false ∧
      asciiLowerChar (digitCh d) = digitCh d ∧ digitVal (digitCh d) = d := by
  interval_cases d <;> exact ⟨by decide, by decide, by decide, by decide⟩

theorem natReprAux_mem (fuel : ℕ) :
    ∀ n : ℕ, ∀ c ∈ natReprAux fuel n,
      isDigitChar c = true ∧ isPySpace c = false ∧ asciiLowerChar c = c := by
  induction fuel with
  | zero =>
    intro n c hc
    rw [natReprAux] at hc
    cases hc
  | succ m ih =>
    intro n c hc
    rw [natReprAux] at hc
    by_cases hn : n = 0
    · rw [if_pos hn] at hc; cases hc
    · rw [if_neg hn] at hc
      rcases List.mem_append.mp hc with h | h
      · exact ih (n / 10) c h
      · have hc2 : c = digitCh (n % 10) := by simpa using h
        subst hc2
        have h10 : n % 10 < 10 := Nat.mod_lt _ (by norm_num)
        obtain ⟨h1, h2, h3, _⟩ := digitCh_props _ h10
        exact ⟨h1, h2, h3⟩

theorem natReprChars_mem (n : ℕ) :
    ∀ c ∈ natReprChars n,
      isDigitChar c = true ∧ isPySpace c = false ∧ asciiLowerChar c = c := by
  intro c hc
  rw [natReprChars] at hc
  by_cases hn : n = 0
  · rw [if_pos hn] at hc
    have hc2 : c = '0' := by simpa using hc
    subst hc2
    exact ⟨by decide, by decide, by decide⟩
  · rw [if_neg hn] at hc
    exact natReprAux_mem n n c hc

theorem natReprChars_ne_nil (n : ℕ) : natReprChars n ≠ [] := by
  rw [natReprChars]
  by_cases hn : n = 0
  · rw [if_pos hn]; simp
  · rw [if_neg hn]
    obtain ⟨m, rfl⟩ := Nat.exists_eq_succ_of_ne_zero hn
    rw [natReprAux, if_neg hn]
    simp

theorem digitsToNat_natReprAux (fuel : ℕ) :
    ∀ n : ℕ, n ≤ fuel → digitsToNat (natReprAux fuel n) = n := by
  induction fuel with
  | zero =>
    intro n hn
    interval_cases n
    rfl
  | succ m ih =>
    intro n hn
    rw [natReprAux]
    by_cases hn0 : n = 0
    · rw [if_pos hn0, hn0]; rfl
    · rw [if_neg hn0]
      have hdiv : n / 10 ≤ m := by
        have := Nat.div_lt_self (Nat.pos_of_ne_zero hn0) (by norm_num : 1 < 10)
        omega
      have hsnoc : digitsToNat (natReprAux m (n / 10) ++ [digitCh (n % 10)])
          = 10 * digitsToNat (natReprAux m (n / 10)) + digitVal (digitCh (n % 10)) := by
        simp only [digitsToNat, List.foldl_append, List.foldl_cons, List.foldl_nil]
      rw [hsnoc, ih (n / 10) hdiv,
        (digitCh_props _ (Nat.mod_lt _ (by norm_num))).2.2.2]
      omega

theorem digitsToNat_natReprChars (n : ℕ) : digitsToNat (natReprChars n) = n := by
  rw [natReprChars]
  by_cases hn : n = 0
  · rw [if_pos hn, hn]; rfl
  · rw [if_neg hn]
    exact digitsToNat_natReprAux n n le_rfl

theorem natReprAux_length (fuel : ℕ) :
    ∀ n k : ℕ, n < 10 ^ k → (natReprAux fuel n).length ≤ k := by
  induction fuel with
  | zero =>
    intro n k _
    rw [natReprAux]
    simp
  | succ m ih =>
    intro n k hk
    rw [natReprAux]
    by_cases hn : n = 0
    · rw [if_pos hn]; simp
    · rw [if_neg hn]
      cases k with
      | zero =>
        exfalso
        have : n = 0 := by simpa using Nat.lt_one_iff.mp (by simpa using hk)
        exact hn this
      | succ j =>
        have h1 : n < 10 ^ j * 10 := by
          calc n < 10 ^ (j + 1) := hk
          _ = 10 ^ j * 10 := pow_succ 10 j
        have h2 : n / 10 < 10 ^ j := by omega
        have h3 := ih (n / 10) j h2
        simp only [List.length_append, List.length_cons, List.length_nil]
        omega

theorem natReprChars_length (n k : ℕ) (hk1 : 1 ≤ k) (h : n < 10 ^ k) :
    (natReprChars n).length ≤ k := by
  rw [natReprChars]
  by_cases hn : n = 0
  · rw [if_pos hn]; simpa using hk1
  · rw [if_neg hn]
    exact natReprAux_length n n k h

theorem span_digits_append (rest : List Char)
    (hrest : ∀ c, rest.head? = some c → isDigitChar c = false) :
    ∀ ds : List Char, (∀ c ∈ ds, isDigitChar c = true) →
      (ds ++ rest).span isDigitChar = (ds, rest) := by
  intro ds
  induction ds with
  | nil =>
    intro _
    rw [List.span_eq_take_drop, List.nil_append]
    cases rest with
    | nil => rfl
    | cons c l =>
      have hcd : isDigitChar c = false := hrest c rfl
      simp [List.takeWhile_cons, List.dropWhile_cons, hcd]
  | cons c cs ih =>
    intro hds
    have hc := hds c (List.mem_cons_self c cs)
    have ihh := ih (fun d hd => hds d (List.mem_cons_of_mem c hd))
    rw [List.span_eq_take_drop] at ihh
    have h1 : (cs ++ rest).takeWhile isDigitChar = cs := by
      have := congrArg Prod.fst ihh
      simpa using this
    have h2 : (cs ++ rest).dropWhile isDigitChar = rest := by
      have := congrArg Prod.snd ihh
      simpa using this
    rw [List.span_eq_take_drop, List.cons_append]
    simp [List.takeWhile_cons, List.dropWhile_cons, hc, h1, h2]

theorem takeDigits1_natRepr (n : ℕ) (rest : List Char)
    (hrest : ∀ c, rest.head? = some c → isDigitChar c = false) :
    takeDigits1 (natReprChars n ++ rest)
      = some (n, (natReprChars n).length, rest) := by
  rw [takeDigits1,
    span_digits_append rest hrest (natReprChars n)
      (fun c hc => (natReprChars_mem n c hc).1)]
  dsimp only
  rw [if_neg (natReprChars_ne_nil n), digitsToNat_natReprChars]

theorem litP_append (p r : List Char) : litP p (p ++ r) = some r := by
  induction p with
  | nil => simp [litP]
  | cons c cs ih => simp [litP, ih]

theorem litP_single (c : Char) (l : List Char) : litP [c] (c :: l) = some l := by
  simp [litP]

theorem dropSpaces_cons (c : Char) (l : List Char) (h : isPySpace c = false) :
    dropSpaces (c :: l) = c :: l := by
  simp [dropSpaces, h]

theorem dropSpaces_space (l : List Char) : dropSpaces (' ' :: l) = dropSpaces l := by
  rw [dropSpaces, if_pos (by decide)]

theorem dropSpaces_append_natRepr (n : ℕ) (r : List Char) :
    dropSpaces (natReprChars n ++ r) = natReprChars n ++ r := by
  obtain ⟨c, cs, hc⟩ : ∃ c cs, natReprChars n = c :: cs := by
    cases h : natReprChars n with
    | nil => exact absurd h (natReprChars_ne_nil n)
    | cons a l => exact ⟨a, l, rfl⟩
  have hns : isPySpace c = false := (natReprChars_mem n c (by rw [hc]; simp)).2.1
  rw [hc, List.cons_append, dropSpaces_cons c _ hns]

theorem map_lower_natRepr (n : ℕ) :
    (natReprChars n).map asciiLowerChar = natReprChars n := by
  have h : ∀ c ∈ natReprChars n, asciiLowerChar c = c :=
    fun c hc => (natReprChars_mem n c hc).2.2
  calc (natReprChars n).map asciiLowerChar = (natReprChars n).map id :=
        List.map_congr_left h
  _ = natReprChars n := List.map_id _

theorem canonicalCommand_toList (x y : ℕ) (a : Option MouseAction) :
    (canonicalCommand x y a).toList
      = "move to (".toList ++ (natReprChars x ++ ([','] ++ ([' ']
          ++ (natReprChars y ++ ([')'] ++ (actionSuffix a).toList))))) := by
  rw [canonicalCommand]
  rw [toList_append, toList_append, toList_append, toList_append, toList_append]
  rw [show (natRepr x).toList = natReprChars x from rfl,
    show (natRepr y).toList = natReprChars y from rfl,
    show (", " : String).toList = [','] ++ [' '] from rfl,
    show (")" : String).toList = [')'] from rfl]
  simp [List.append_assoc]

theorem lowerChars_canonical (x y : ℕ) (a : Option MouseAction) :
    lowerChars (canonicalCommand x y a) = (canonicalCommand x y a).toList := by
  rw [lowerChars, canonicalCommand_toList]
  rw [List.map_append, List.map_append, List.map_append, List.map_append,
    List.map_append, List.map_append]
  rw [map_lower_natRepr, map_lower_natRepr]
  rw [show ("move to (".toList).map asciiLowerChar = "move to (".toList from by decide,
    show ([','].map asciiLowerChar) = [','] from by decide,
    show ([' '].map asciiLowerChar) = [' '] from by decide,
    show ([')'].map asciiLowerChar) = [')'] from by decide]
  congr 1
  congr 1
  congr 1
  congr 1
  congr 1
  cases a with
  | none => decide
  | some act => cases act <;> decide

theorem actionTail_suffix (a : Option MouseAction) :
    actionTail ((actionSuffix a).toList) = some a := by
  cases a with
  | none => decide
  | some act => cases act <;> decide

theorem matchMoveAux_canonical (x y : ℕ) (a : Option MouseAction) :
    matchMoveAux (lowerChars (canonicalCommand x y a))
      = some (x, (natReprChars x).length, y, (natReprChars y).length, a) := by
  rw [lowerChars_canonical, canonicalCommand_toList]
  simp only [List.cons_append, List.nil_append]
  rw [matchMoveAux]
  rw [litP_append]
  dsimp only
  rw [dropSpaces_append_natRepr]
  rw [takeDigits1_natRepr x _ (fun c h => by
    have hc : c = ',' := by simpa using h.symm
    subst hc; decide)]
  dsimp only
  rw [dropSpaces_cons ',' _ (by decide)]
  rw [show (",".toList : List Char) = [','] from rfl]
  rw [litP_single]
  dsimp only
  rw [dropSpaces_space]
  rw [dropSpaces_append_natRepr]
  rw [takeDigits1_natRepr y _ (fun c h => by
    have hc : c = ')' := by simpa using h.symm
    subst hc; decide)]
  dsimp only
  rw [dropSpaces_cons ')' _ (by decide)]
  rw [show (")".toList : List Char) = [')'] from rfl]
  rw [litP_single]
  dsimp only
  rw [actionTail_suffix]

/-! ## Claim theorems -/

/-- C1 (counterexample): with an input command that never validates or
formats and an oracle that always replies with a malformed string,
execute_command returns False after exactly one regeneration-oracle call,
not after max_regeneration_attempts = 5 calls. -/
theorem c1_regeneration_counterexample :
    execute_command envC1 "please click the continue button"
        = (.ok false, ⟨1, [], 0, 0⟩) ∧ (1 : ℕ) ≠ maxRegenerationAttempts :=
  ⟨rfl, by decide⟩

/-- C1 (amended): for every input command that neither validates nor
formats and an oracle whose reply (if any) fails validation,
execute_command returns False after exactly one regeneration-oracle
call: the loop exits as soon as a regenerated command fails validation,
so the max_regeneration_attempts bound is never consumed by a stream of
malformed oracle replies. -/
theorem c1_regeneration_single_call (env : Env) (command : String)
    (hv : validate_command command = false)
    (hf : format_command command = none)
    (hr : ∀ r, env.regenerate 0 = some r → validate_command r = false) :
    execute_command env command = (.ok false, ⟨1, [], 0, 0⟩) := by
  rw [execute_command, show maxRegenerationAttempts = 4 + 1 from rfl, executeLoop]
  rw [hv, if_pos rfl, hf]
  dsimp only
  cases hreg : env.regenerate 0 with
  | none => rfl
  | some r => simp [hr r hreg]

/-- C1 (witness): the single-call behaviour at a concrete malformed
command and a concretely malformed-replying oracle. -/
theorem c1_regeneration_single_call_witness :
    execute_command envC1 "nonsense input"
        = (.ok false, ⟨1, [], 0, 0⟩) :=
  c1_regeneration_single_call envC1 "nonsense input" (by decide) (by decide)
    (fun r h => by
      have h2 : "still not a command" = r := Option.some.inj h
      rw [← h2]
      decide)

/-- C2 (counterexample): the command "MOVE TO (0,0) AND DOUBLE-CLICK" is
rejected by validate_command, which is case-sensitive and admits only the
bare and the and-click forms, although the claim counts it as accepted by
command validation/parsing. -/
theorem c2_grammar_counterexample :
    validate_command "MOVE TO (0,0) AND DOUBLE-CLICK" = false := by decide

/-- C2 (amended): parse_command and format_command accept the four
case-insensitive grammar forms — all three example commands parse and
format, and the three malformed examples are rejected by parse_command,
format_command and validate_command alike; validate_command, however, is
case-sensitive and admits only the bare form and the and-click form, so
it accepts the two lower-case examples but rejects
"MOVE TO (0,0) AND DOUBLE-CLICK". -/
theorem c2_grammar_acceptance :
    parse_command "move to (12, 34)" = some (12, 34, none) ∧
    parse_command "move to (12, 34) and click" = some (12, 34, some "click") ∧
    parse_command "MOVE TO (0,0) AND DOUBLE-CLICK"
        = some (0, 0, some "double-click") ∧
    format_command "move to (12, 34)" = some "move to (12, 34)" ∧
    format_command "move to (12, 34) and click"
        = some "move to (12, 34) and click" ∧
    format_command "MOVE TO (0,0) AND DOUBLE-CLICK"
        = some "move to (0, 0) and double-click" ∧
    validate_command "move to (12, 34)" = true ∧
    validate_command "move to (12, 34) and click" = true ∧
    validate_command "MOVE TO (0,0) AND DOUBLE-CLICK" = false ∧
    parse_command "move to (12,34" = none ∧
    parse_command "go to (12,34)" = none ∧
    parse_command "move to (12.5, 34)" = none ∧
    format_command "move to (12,34" = none ∧
    format_command "go to (12,34)" = none ∧
    format_command "move to (12.5, 34)" = none ∧
    validate_command "move to (12,34" = false ∧
    validate_command "go to (12,34)" = false ∧
    validate_command "move to (12.5, 34)" = false := by
  repeat' apply And.intro
  all_goals decide

/-- C3 (counterexample): with viewport bounds 1000 by 600 the command
"move to (1001, 599)" passes validate_command, so format_command's
out-of-bounds rejection is never consulted, and execute_command silently
clamps the coordinates, issuing its mouse move at (1000, 599) and
returning True. -/
theorem c3_bounds_counterexample :
    validate_command "move to (1001, 599)" = true ∧
    format_command "move to (1001, 599)" = none ∧
    execute_command envC3 "move to (1001, 599)"
        = (.ok true, ⟨0, [(1000, 599)], 1, 0⟩) :=
  ⟨by decide, by decide, rfl⟩

/-- C3 (amended): a grammar-matching command whose coordinates exceed the
configured 1000 by 600 box is rejected by format_command (None, not
clamped); but execute_command consults that bounds check only when
validate_command fails, and for commands accepted by validate_command it
clamps the parsed coordinates into the viewport and issues the move
there. -/
theorem c3_bounds_rejection (env : Env) (s : String) (x xn y yn : ℕ)
    (a : Option MouseAction)
    (hm : matchMoveAux (lowerChars s) = some (x, xn, y, yn, a))
    (hoob : 1000 < x ∨ 600 < y) :
    format_command s = none ∧
    (validate_command s = true →
      ((execute_command env s).2).moves.head?
        = some (max 0 (min x env.W), max 0 (min y env.H))) := by
  constructor
  · unfold format_command
    rw [hm]
    dsimp only
    split_ifs with h1 h2
    · exfalso; omega
    · rfl
    · rfl
  · intro hv
    have hp : parse_command s = some (x, y, a.map actionStr) := by
      unfold parse_command
      rw [hm]
    rw [execute_command, show maxRegenerationAttempts = 4 + 1 from rfl, executeLoop]
    rw [hv, if_neg (by simp)]
    exact executeStep_first_move env _ s ⟨0, [], 0, 0⟩ x y (a.map actionStr) hp rfl
      (fun c t ht => executeLoop_moves_head env 4 c t ht)

/-- C3 (witness): the amended bounds behaviour at the concrete command
"move to (1001, 599)" in the 1000 by 600 environment. -/
theorem c3_bounds_rejection_witness :
    format_command "move to (1001, 599)" = none ∧
    (validate_command "move to (1001, 599)" = true →
      ((execute_command envC3 "move to (1001, 599)").2).moves.head?
        = some (max 0 (min 1001 envC3.W), max 0 (min 599 envC3.H))) :=
  c3_bounds_rejection envC3 "move to (1001, 599)" 1001 4 599 3 none
    (by decide) (Or.inl (by decide))

/-- C4: a task whose processing always raises TaskProcessingError is
attempted exactly MAX_RETRIES times with sleeps d, 2d, 4d, is appended to
the dead-letter list exactly once, and the worker then continues with the
remaining queue, never re-queueing the dead-lettered task. -/
theorem c4_scheduler_resilience (d : ℚ) (outcome : ℕ → ℕ → TaskOutcome)
    (t1 : ℕ) (queue : List ℕ) (ws : WorkerState)
    (h1 : ∀ n, outcome t1 n = .taskError) :
    process_task_with_retries d (outcome t1)
        = .ok (true, MAX_RETRIES, [d, d * 2, d * 4]) ∧
    task_worker d outcome (t1 :: queue) ws =
      task_worker d outcome queue
        ⟨ws.processed + 1, ws.failed, ws.deadLetters ++ [t1]⟩ := by
  have hp : process_task_with_retries d (outcome t1)
      = .ok (true, MAX_RETRIES, [d, d * 2, d * 4]) := by
    rw [process_task_with_retries, retryLoop_allFail d (outcome t1) h1]
    norm_num [MAX_RETRIES, List.range_succ]
  refine ⟨hp, ?_⟩
  rw [task_worker, hp]
  simp

/-- C4 (witness): the scheduler behaviour at retry_delay 2 (the source
default), a concrete always-failing task 0 and a follow-up task 1. -/
theorem c4_scheduler_resilience_witness :
    process_task_with_retries 2 ((fun _ _ => TaskOutcome.taskError) 0)
        = .ok (true, MAX_RETRIES, [2, 2 * 2, 2 * 4]) ∧
    task_worker 2 (fun _ _ => TaskOutcome.taskError) [0, 1] ⟨0, 0, []⟩ =
      task_worker 2 (fun _ _ => TaskOutcome.taskError) [1] ⟨0 + 1, 0, [] ++ [0]⟩ :=
  c4_scheduler_resilience 2 (fun _ _ => TaskOutcome.taskError) 0 [1] ⟨0, 0, []⟩
    (fun _ => rfl)

/-- C5 (counterexample): a reported position one or two pixels away from
the target lies within movement_tolerance = 2, yet both the post-move
check and the post-click check return False. -/
theorem c5_tolerance_counterexample :
    verify_location (12, 10) 10 10 = false ∧
    verify_click_success (12, 10) 10 10 = false ∧
    |(12 : ℚ) - 10| ≤ (movement_tolerance : ℚ) ∧
    |(10 : ℚ) - 10| ≤ (movement_tolerance : ℚ) := by
  refine ⟨by decide, by decide, ?_, ?_⟩ <;> norm_num [movement_tolerance]

/-- C5 (amended): a move or click is considered to have landed exactly
when the reported position equals the target, pixel for pixel; the
defined movement_tolerance is never consulted by either check. -/
theorem c5_verification_exact (current : ℚ × ℚ) (x y : ℚ) :
    (verify_location current x y = true ↔ current = (x, y)) ∧
    (verify_click_success current x y = true ↔ current = (x, y)) := by
  constructor <;> simp [verify_location, verify_click_success]

/-- C6: normalize_coordinates is the pure linear scaling
x * surface_dim / image_dim in each axis, and for in-bounds points the
image-surface round-trip reproduces the surface point exactly, hence
within one pixel per axis. -/
theorem c6_coordinate_round_trip (m : ViewportMapping) (x y : ℚ)
    (hvw : m.viewportWidth ≠ 0) (hvh : m.viewportHeight ≠ 0)
    (hsw : m.screenshotWidth ≠ 0) (hsh : m.screenshotHeight ≠ 0)
    (hx : 0 ≤ x ∧ x ≤ m.screenshotWidth)
    (hy : 0 ≤ y ∧ y ≤ m.screenshotHeight) :
    to_surface m (x, y) = (x * m.viewportWidth / m.screenshotWidth,
      y * m.viewportHeight / m.screenshotHeight) ∧
    to_image m (x, y) = (x * m.screenshotWidth / m.viewportWidth,
      y * m.screenshotHeight / m.viewportHeight) ∧
    to_surface m (to_image m (to_surface m (x, y))) = to_surface m (x, y) ∧
    |(to_surface m (to_image m (to_surface m (x, y)))).1
        - (to_surface m (x, y)).1| ≤ 1 ∧
    |(to_surface m (to_image m (to_surface m (x, y)))).2
        - (to_surface m (x, y)).2| ≤ 1 := by
  have h3 : to_surface m (to_image m (to_surface m (x, y))) = to_surface m (x, y) := by
    simp only [to_surface, to_image, normalize_coordinates, if_true]
    field_simp
  refine ⟨rfl, rfl, h3, ?_, ?_⟩ <;> rw [h3] <;> simp

/-- C6 (witness): the round-trip at the source dimensions (viewport
776 by 464, screenshot 1008 by 1008) and the in-bounds point (100, 200). -/
theorem c6_coordinate_round_trip_witness :
    to_surface mapC6 (100, 200)
        = (100 * mapC6.viewportWidth / mapC6.screenshotWidth,
           200 * mapC6.viewportHeight / mapC6.screenshotHeight) ∧
    to_surface mapC6 (to_image mapC6 (to_surface mapC6 (100, 200)))
        = to_surface mapC6 (100, 200) := by
  have h := c6_coordinate_round_trip mapC6 100 200 (by norm_num [mapC6])
    (by norm_num [mapC6]) (by norm_num [mapC6]) (by norm_num [mapC6])
    (by norm_num [mapC6]) (by norm_num [mapC6])
  exact ⟨h.1, h.2.2.1⟩

/-- C7 (counterexample): the oracle reply whose JSON is the object with
confidence null is valid JSON with a non-numeric confidence, yet
verify_mouse_position raises TypeError to its caller instead of
returning confidence 0 — float(None) raises TypeError, which the
except (ValueError, JSONDecodeError) clause does not catch. -/
theorem c7_verification_counterexample :
    verify_mouse_position (some (.obj [("confidence", .null)]))
        = .error .typeError := rfl

/-- C7 (amended): a reply that is not valid JSON, or whose confidence
value is a non-numeric string, yields confidence 0 without raising; only
those malformed replies are converted — a valid-JSON reply whose
confidence is of non-string, non-numeric type escapes as an exception. -/
theorem c7_malformed_reply_confidence_zero :
    verify_mouse_position none = .ok 0 ∧
    (∀ (kvs : List (String × JsonVal)) (s : String),
      lookupKey kvs "confidence" = some (.str s) → pyParseFloat s = none →
      verify_mouse_position (some (.obj kvs)) = .ok 0) := by
  refine ⟨rfl, ?_⟩
  intro kvs s hk hp
  simp [verify_mouse_position, hk, pyFloat, hp]

/-- C7 (witness): confidence 0 at the concrete non-numeric string reply. -/
theorem c7_malformed_reply_confidence_zero_witness :
    verify_mouse_position (some (.obj [("confidence", JsonVal.str "high")]))
        = .ok 0 :=
  c7_malformed_reply_confidence_zero.2 [("confidence", JsonVal.str "high")]
    "high" rfl rfl

/-- C8: the synchronous wrappers are total boolean functions — every raise
of a surface primitive is caught — and, with the surface capabilities
present and sync enabled, move_to returns True exactly when the position
read succeeds and the surface accepts every issued move (each waypoint of
the smoothstep path, or the single clamped target), while click returns
True exactly when the position reads succeed, the pre-click position
re-assertion does not raise, and every required click reply is truthy. -/
theorem c8_wrapper_failure_semantics (s : Surface) (st : MouseState)
    (W H x y : ℚ) (button : String) (double : Bool)
    (hM : s.hasMoveMouse = true) (hC : s.hasClickMouse = true) :
    (move_to s true W H st x y true = true ↔
      ∃ q st1, mouseGetPosition s true 0 st = .ok (q, st1) ∧
        ∀ p ∈ generate_movement_path q (max 0 (min x W), max 0 (min y H)) 30,
          s.moveMouse ((pyInt p.1 : ℚ), (pyInt p.2 : ℚ)) = .ok true) ∧
    (move_to s true W H st x y false = true ↔
      ∃ q st1, mouseGetPosition s true 0 st = .ok (q, st1) ∧
        s.moveMouse ((pyInt (max 0 (min x W)) : ℚ),
          (pyInt (max 0 (min y H)) : ℚ)) = .ok true) ∧
    (click s true st button double = true ↔
      ∃ q st1, mouseGetPosition s true 0 st = .ok (q, st1) ∧
        (∃ b, s.moveMouse q = .ok b) ∧
        s.clickMouse 0 button = .ok true ∧
        (double = true → s.clickMouse 1 button = .ok true) ∧
        (∃ r st2, mouseGetPosition s true 1 st1 = .ok (r, st2))) := by
  refine ⟨?_, ?_, ?_⟩
  · rw [move_to, moveToBody]
    cases hget : mouseGetPosition s true 0 st with
    | error e => simp
    | ok v =>
      obtain ⟨q, st1⟩ := v
      dsimp only
      rw [if_pos rfl]
      rw [except_match_true_iff, moveMouseSteps_ok_iff s hM]
      constructor
      · intro hall
        exact ⟨q, st1, rfl, hall⟩
      · rintro ⟨q2, st2, hq, hall⟩
        have hqq : q = q2 ∧ st1 = st2 := by simpa using hq
        obtain ⟨h1, _⟩ := hqq
        subst h1
        exact hall
  · rw [move_to, moveToBody]
    cases hget : mouseGetPosition s true 0 st with
    | error e => simp
    | ok v =>
      obtain ⟨q, st1⟩ := v
      dsimp only
      rw [if_neg (by simp)]
      simp only [hM, Bool.and_self, if_true]
      cases hmv : s.moveMouse ((pyInt (max 0 (min x W)) : ℚ),
          (pyInt (max 0 (min y H)) : ℚ)) with
      | error e => simp [hmv]
      | ok b =>
        cases b with
        | false => simp [hmv]
        | true => simp [hmv]
  · rw [click, clickBody]
    rw [if_pos rfl]
    cases hget : mouseGetPosition s true 0 st with
    | error e => simp
    | ok v =>
      obtain ⟨q, st1⟩ := v
      dsimp only
      simp only [hM, if_true]
      cases hmv : s.moveMouse q with
      | error e =>
        simp [discardResult, hmv]
        intro a b hqab hor
        exfalso
        rw [← hqab, hmv] at hor
        rcases hor with h | h <;> exact Except.noConfusion h
      | ok b =>
        simp only [discardResult, hmv]
        simp only [hC, if_true]
        cases hck : s.clickMouse 0 button with
        | error e => simp [hck]
        | ok b0 =>
          cases b0 with
          | false => simp [hck]
          | true =>
            cases double with
            | false =>
              rw [if_neg (by simp)]
              rw [clickDebugLine]
              cases hget1 : mouseGetPosition s true 1 st1 with
              | error e => simp [hget1, hck, hmv]
              | ok v1 =>
                obtain ⟨r, st2⟩ := v1
                obtain ⟨r1, r2⟩ := r
                obtain ⟨q1, q2⟩ := q
                simp only [hget1, hck, hmv]
                simp [hget1, hck, hmv]
                refine ⟨q1, q2, st1, ⟨⟨rfl, rfl⟩, rfl⟩, ?_, r1, r2, st2, hget1⟩
                cases b with
                | false => exact Or.inl hmv
                | true => exact Or.inr hmv
            | true =>
              rw [if_pos rfl]
              cases hck1 : s.clickMouse 1 button with
              | error e => simp [hck1, hck, hmv]
              | ok b1 =>
                cases b1 with
                | false => simp [hck1, hck, hmv]
                | true =>
                  rw [clickDebugLine]
                  cases hget1 : mouseGetPosition s true 1 st1 with
                  | error e => simp [hget1, hck, hck1, hmv]
                  | ok v1 =>
                    obtain ⟨r, st2⟩ := v1
                    obtain ⟨r1, r2⟩ := r
                    obtain ⟨q1, q2⟩ := q
                    simp [hget1, hck, hck1, hmv]
                    refine ⟨q1, q2, st1, ⟨⟨rfl, rfl⟩, rfl⟩, ?_, r1, r2, st2, hget1⟩
                    cases b with
                    | false => exact Or.inl hmv
                    | true => exact Or.inr hmv

/-- C8 (witness): with a fully capable, always-succeeding surface, the
wrappers report success for a direct move and for a double click. -/
theorem c8_wrapper_failure_semantics_witness :
    move_to surfC8 true 100 100 ⟨(0, 0), (0, 0)⟩ 50 50 false = true ∧
    click surfC8 true ⟨(0, 0), (0, 0)⟩ "left" true = true := by
  have h := c8_wrapper_failure_semantics surfC8 ⟨(0, 0), (0, 0)⟩ 100 100 50 50
    "left" true rfl rfl
  constructor
  · exact h.2.1.mpr ⟨(5, 5), ⟨(5, 5), (5, 5)⟩, rfl, rfl⟩
  · exact h.2.2.mpr ⟨(5, 5), ⟨(5, 5), (5, 5)⟩, rfl, ⟨true, rfl⟩, rfl,
      fun _ => rfl, ⟨(5, 5), ⟨(5, 5), (5, 5)⟩, rfl⟩⟩

/-- C9: for step count n at least 1, the generated smooth path has exactly
n + 1 waypoints, waypoint i is start + (target - start) * smoothstep(i/n)
in each axis, the first waypoint is the start position and the last
waypoint is the target exactly. -/
theorem c9_smoothstep_path (start tgt : ℚ × ℚ) (n : ℕ) (hn : 1 ≤ n) :
    (generate_movement_path start tgt n).length = n + 1 ∧
    (∀ i : ℕ, i ≤ n → (generate_movement_path start tgt n)[i]? =
      some (start.1 + (tgt.1 - start.1) * smoothstep ((i : ℚ) / (n : ℚ)),
            start.2 + (tgt.2 - start.2) * smoothstep ((i : ℚ) / (n : ℚ)))) ∧
    (generate_movement_path start tgt n)[0]? = some start ∧
    (generate_movement_path start tgt n)[n]? = some tgt := by
  have hget : ∀ i : ℕ, i ≤ n → (generate_movement_path start tgt n)[i]? =
      some (start.1 + (tgt.1 - start.1) * smoothstep ((i : ℚ) / (n : ℚ)),
            start.2 + (tgt.2 - start.2) * smoothstep ((i : ℚ) / (n : ℚ))) := by
    intro i hi
    have hilt : i < n + 1 := Nat.lt_succ_of_le hi
    rw [generate_movement_path, List.getElem?_map, List.getElem?_range hilt]
    rfl
  refine ⟨by rw [generate_movement_path, List.length_map, List.length_range], hget, ?_, ?_⟩
  · rw [hget 0 (Nat.zero_le n)]
    norm_num [smoothstep]
  · rw [hget n le_rfl]
    have hne : (n : ℚ) ≠ 0 := Nat.cast_ne_zero.mpr (by omega)
    rw [div_self hne]
    have h1 : smoothstep 1 = 1 := by norm_num [smoothstep]
    rw [h1]
    simp [Prod.ext_iff]

/-- C9 (witness): the path for one step from (0, 0) to (2, 4) has two
waypoints. -/
theorem c9_smoothstep_path_witness :
    1 ≤ 1 ∧ (generate_movement_path ((0 : ℚ), (0 : ℚ)) ((2 : ℚ), (4 : ℚ)) 1).length
      = 1 + 1 :=
  ⟨le_refl 1,
    (c9_smoothstep_path ((0 : ℚ), (0 : ℚ)) ((2 : ℚ), (4 : ℚ)) 1 (le_refl 1)).1⟩

/-- C10: command formatting is normalizing and idempotent — whenever
format_command accepts a string, the output is the canonical
"move to (x, y)" form with the optional " and action" suffix, parsing
the output and parsing the input yield the same (x, y, action) triple,
and formatting the output returns it unchanged. -/
theorem c10_format_idempotent (s out : String)
    (h : format_command s = some out) :
    ∃ (x y : ℕ) (a : Option MouseAction),
      out = canonicalCommand x y a ∧
      parse_command s = some (x, y, a.map actionStr) ∧
      parse_command out = some (x, y, a.map actionStr) ∧
      format_command out = some out := by
  unfold format_command at h
  cases hm : matchMoveAux (lowerChars s) with
  | none => rw [hm] at h; exact absurd h (by simp)
  | some r =>
    obtain ⟨x, xn, y, yn, a⟩ := r
    rw [hm] at h
    dsimp only at h
    split_ifs at h with hd hb
    · have hout : out = canonicalCommand x y a := (Option.some.inj h).symm
      refine ⟨x, y, a, hout, ?_, ?_, ?_⟩
      · unfold parse_command
        rw [hm]
      · unfold parse_command
        rw [hout, matchMoveAux_canonical]
      · unfold format_command
        rw [hout, matchMoveAux_canonical]
        dsimp only
        have hx4 : (natReprChars x).length ≤ 4 :=
          natReprChars_length x 4 (by norm_num) (by omega)
        have hy4 : (natReprChars y).length ≤ 4 :=
          natReprChars_length y 4 (by norm_num) (by omega)
        rw [if_pos ⟨hx4, hy4⟩, if_pos hb]


/-- C10 (witness): normalization and idempotence at a concrete accepted
command with extra spacing and upper case. -/
theorem c10_format_idempotent_witness :
    ∃ (x y : ℕ) (a : Option MouseAction),
      "move to (12, 34) and click" = canonicalCommand x y a ∧
      parse_command "MOVE TO ( 12 ,34 ) AND CLICK" = some (x, y, a.map actionStr) ∧
      parse_command "move to (12, 34) and click" = some (x, y, a.map actionStr) ∧
      format_command "move to (12, 34) and click"
        = some "move to (12, 34) and click" :=
  c10_format_idempotent "MOVE TO ( 12 ,34 ) AND CLICK"
    "move to (12, 34) and click" (by decide)

end VGC
